import Mathlib

/-!
Shallow embedding of the target-selection and interaction-timing engine of
`src/main.py` (the red-dot reaction-time game built on a 3D engine).

Modelling choices:
* The mutable globals of `main.py` (`chosenNum`, `localNum2`, `mouseOver`,
  `outputDataContents`, `timerOverallNew`, `timerRedNew`) become the fields of
  `GameState`.  Rendering calls (`setColor`, window and scene setup) are
  Presentation-Layer effects with no influence on this state and are not part
  of the embedding.
* Every call to `randrange(17)` is an oracle outcome.  A rejection-sampling
  loop (`x = randrange(17); while bad(x): x = randrange(17)`) is embedded as
  `firstDraw`: the first element of a given list of oracle outcomes that
  satisfies the acceptance predicate, with `none` when the finite list is
  exhausted (the Python loop would simply keep drawing).
* `time.perf_counter()` readings and `datetime.now().strftime("%H:%M:%S")`
  timestamps are inputs of the click handler; the several `perf_counter()`
  calls inside one invocation of `changeColor` are modelled as one instant
  `now : Rat`, since nothing in the handler depends on their tiny differences.
* File output: `saveDataExit` writes the string `outputDataContents` to a file
  named `dataFile_<makeid 16>.txt`; we embed the written contents and the name.
-/

namespace RedDot

/-- The state held in the mutable globals of `main.py`. -/
structure GameState where
  /-- `chosenNum`: index of the active (red) target. -/
  chosenNum : Nat
  /-- `localNum2`: index of the pre-selected (yellow) target. -/
  localNum2 : Nat
  /-- `mouseOver`: whether the pointer has been seen over the active target. -/
  mouseOver : Bool
  /-- `outputDataContents`: the accumulated log text. -/
  outputDataContents : String
  /-- `timerOverallNew`: cursor updated on every click. -/
  timerOverallNew : Rat
  /-- `timerRedNew`: cursor updated on inside-active clicks only. -/
  timerRedNew : Rat
  deriving Repr, DecidableEq

/-- The header literal initialising `outputDataContents` (line 61 of `main.py`). -/
def headerLine : String := "timeStamp,event,timeSinceLastClick,timeSinceLastRedClick\n"

/-- Rejection sampling: the first oracle outcome in `draws` accepted by `p`.
Embeds `x = randrange(17)` followed by `while not p(x): x = randrange(17)`. -/
def firstDraw (p : Nat → Bool) : List Nat → Option Nat
  | [] => none
  | d :: ds => if p d then some d else firstDraw p ds

/-- The selection/logging part of `AsteroidsDemo.__init__` (lines 161-171):
`chosenNum = randrange(17)`; `localNum2 = randrange(17)` resampled while equal
to `chosenNum`; append the `firstRedAppears` line.  `chosenDraw` is the single
draw for `chosenNum`, `localDraws` the oracle stream for `localNum2`, and
`startStr` the `datetime.now().strftime("%H:%M:%S")` reading. -/
def initState (chosenDraw : Nat) (localDraws : List Nat) (startStr : String) :
    Option GameState :=
  match firstDraw (fun d => decide (d ≠ chosenDraw)) localDraws with
  | none => none
  | some l => some
      { chosenNum := chosenDraw
        localNum2 := l
        mouseOver := false
        outputDataContents := headerLine ++ startStr ++ ",firstRedAppears,,\n"
        timerOverallNew := 99999
        timerRedNew := 99999 }

/-- `AsteroidsDemo.everySecond` (lines 217-225), the NextTick handler:
recolour the old pre-selected target, resample `localNum2` while it equals
`chosenNum`, recolour the new one.  Colours are Presentation-Layer effects. -/
def everySecond (s : GameState) (draws : List Nat) : Option GameState :=
  match firstDraw (fun d => decide (d ≠ s.chosenNum)) draws with
  | none => none
  | some l => some { s with localNum2 := l }

/-- `AsteroidsDemo.everySecondRed` (lines 227-236), the ActiveTick handler:
recolour the old active target, resample `localNum` while
`chosenNum == localNum or localNum2 == localNum`, then `chosenNum = localNum`
and recolour. -/
def everySecondRed (s : GameState) (draws : List Nat) : Option GameState :=
  match firstDraw (fun d => decide (d ≠ s.chosenNum ∧ d ≠ s.localNum2)) draws with
  | none => none
  | some l => some { s with chosenNum := l }

/-- `AsteroidsDemo.mouseTask` (lines 191-215), the per-frame hit test.
`hasMouse` embeds `self.mouseWatcherNode.hasMouse()`; `hit` embeds the result
of the collision pass over the active target: `some i` when
`pq.getNumEntries() > 0` and `i` is the tag of the closest entry, `none`
otherwise.  `mouseOver` is set to true when the hit index equals `chosenNum`,
and is otherwise left unchanged. -/
def mouseTask (s : GameState) (hasMouse : Bool) (hit : Option Nat) : GameState :=
  if hasMouse then
    match hit with
    | some i => if s.chosenNum = i then { s with mouseOver := true } else s
    | none => s
  else s

/-- Clamp-at-zero, embedding `x = a; if x < 0: x = 0`. -/
def clamp0 (x : Rat) : Rat := if x < 0 then 0 else x

/-- The `leftClkInsideRed` log line of `changeColor` (line 254). -/
def insideRedLine (t : String) (dOverall dRed : Rat) : String :=
  t ++ ",leftClkInsideRed," ++ toString dOverall ++ "," ++ toString dRed ++ "\n"

/-- The `leftClkOutsideRed` log line of `changeColor` (line 269). -/
def outsideRedLine (t : String) (dOverall : Rat) : String :=
  t ++ ",leftClkOutsideRed," ++ toString dOverall ++ ",\n"

/-- `AsteroidsDemo.changeColor` (lines 238-269), the click handler.
`now` embeds the `time.perf_counter()` readings of this invocation and
`nowStr` the `datetime.now().strftime("%H:%M:%S")` reading.  The
commented-out retargeting block of the source (lines 255-262) is dead code
and is not part of the behaviour. -/
def changeColor (s : GameState) (now : Rat) (nowStr : String) : GameState :=
  if s.mouseOver = true then
    { s with
        outputDataContents := s.outputDataContents ++
          insideRedLine nowStr (clamp0 (now - s.timerOverallNew))
            (clamp0 (now - s.timerRedNew))
        timerOverallNew := now
        timerRedNew := now
        mouseOver := false }
  else
    { s with
        outputDataContents := s.outputDataContents ++
          outsideRedLine nowStr (clamp0 (now - s.timerOverallNew))
        timerOverallNew := now }

/-- The alphabet used by `AsteroidsDemo.makeid` (line 185). -/
def characters : String :=
  "ABCDEFGHIJKLMNOPQRSTUVWXYZabcdefghijklmnopqrstuvwxyz0123456789"

theorem characters_toList_length : characters.toList.length = 62 := by decide

/-- `AsteroidsDemo.makeid` (lines 183-189): starting from the empty string,
append `characters[randrange(62)]` a total of `len` times.  `draw i` is the
outcome of the i-th `randrange(charactersLength)` call, a value in `[0, 62)`. -/
def makeid (len : Nat) (draw : Nat → Fin 62) : String :=
  (List.range len).foldl
    (fun result i =>
      result.push (characters.toList.get
        (Fin.cast characters_toList_length.symm (draw i)))) ""

/-- The file name built by `AsteroidsDemo.saveDataExit` (line 272). -/
def saveFileName (draw : Nat → Fin 62) : String :=
  "dataFile_" ++ makeid 16 draw ++ ".txt"

/-- The file contents written by `AsteroidsDemo.saveDataExit` (line 274). -/
def saveContents (s : GameState) : String := s.outputDataContents

/-- One serialized invocation of a core entry point, with its oracle inputs. -/
inductive Step where
  | nextTick (draws : List Nat)
  | activeTick (draws : List Nat)
  | frame (hasMouse : Bool) (hit : Option Nat)
  | click (now : Rat) (nowStr : String)
  deriving Repr

/-- Run one step on the state. -/
def stepRun (s : GameState) : Step → Option GameState
  | .nextTick draws => everySecond s draws
  | .activeTick draws => everySecondRed s draws
  | .frame hasMouse hit => some (mouseTask s hasMouse hit)
  | .click now nowStr => some (changeColor s now nowStr)

/-- Run a serialized sequence of steps (the single-threaded driver loop). -/
def runSteps (s : GameState) : List Step → Option GameState
  | [] => some s
  | st :: sts =>
    match stepRun s st with
    | none => none
    | some s₁ => runSteps s₁ sts

/-- Whether a step is a click event. -/
def Step.isClick : Step → Bool
  | .click _ _ => true
  | _ => false

/-- The `randrange(17)` outcomes carried by a step. -/
def Step.draws : Step → List Nat
  | .nextTick draws => draws
  | .activeTick draws => draws
  | _ => []

/-- Selection-state invariant: both indices are valid targets and the active
index differs from the pre-selected index. -/
def Inv (s : GameState) : Prop :=
  s.chosenNum < 17 ∧ s.localNum2 < 17 ∧ s.chosenNum ≠ s.localNum2

/-- All `randrange(17)` outcomes of a step list are in range. -/
def ValidDraws (steps : List Step) : Prop :=
  ∀ st ∈ steps, ∀ d ∈ st.draws, d < 17

theorem firstDraw_some {p : Nat → Bool} :
    ∀ {l : List Nat} {x : Nat}, firstDraw p l = some x → p x = true ∧ x ∈ l := by
  intro l
  induction l with
  | nil => intro x h; simp [firstDraw] at h
  | cons d ds ih =>
    intro x h
    by_cases hd : p d
    · simp [firstDraw, hd] at h
      subst h
      exact ⟨hd, List.mem_cons_self d ds⟩
    · simp [firstDraw, hd] at h
      rcases ih h with ⟨h1, h2⟩
      exact ⟨h1, List.mem_cons_of_mem d h2⟩

theorem initState_spec {c : Nat} {localDraws : List Nat} {str : String}
    {s : GameState} (h : initState c localDraws str = some s) :
    s.chosenNum = c ∧ s.localNum2 ≠ c ∧ s.localNum2 ∈ localDraws ∧
      s.mouseOver = false ∧
      s.outputDataContents = headerLine ++ str ++ ",firstRedAppears,,\n" ∧
      s.timerOverallNew = 99999 ∧ s.timerRedNew = 99999 := by
  unfold initState at h
  rcases hfd : firstDraw (fun d => decide (d ≠ c)) localDraws with _ | l
  · rw [hfd] at h; exact absurd h (by simp)
  · rw [hfd] at h
    rcases firstDraw_some hfd with ⟨hp, hmem⟩
    simp only [Option.some.injEq] at h
    subst h
    simp_all

theorem everySecond_spec {s s' : GameState} {draws : List Nat}
    (h : everySecond s draws = some s') :
    s'.localNum2 ≠ s.chosenNum ∧ s'.localNum2 ∈ draws ∧
      s'.chosenNum = s.chosenNum ∧ s'.mouseOver = s.mouseOver ∧
      s'.outputDataContents = s.outputDataContents ∧
      s'.timerOverallNew = s.timerOverallNew ∧ s'.timerRedNew = s.timerRedNew := by
  unfold everySecond at h
  rcases hfd : firstDraw (fun d => decide (d ≠ s.chosenNum)) draws with _ | l
  · rw [hfd] at h; exact absurd h (by simp)
  · rw [hfd] at h
    rcases firstDraw_some hfd with ⟨hp, hmem⟩
    simp only [Option.some.injEq] at h
    subst h
    simp_all

theorem everySecondRed_spec {s s' : GameState} {draws : List Nat}
    (h : everySecondRed s draws = some s') :
    s'.chosenNum ≠ s.chosenNum ∧ s'.chosenNum ≠ s.localNum2 ∧
      s'.chosenNum ∈ draws ∧ s'.localNum2 = s.localNum2 ∧
      s'.mouseOver = s.mouseOver ∧
      s'.outputDataContents = s.outputDataContents ∧
      s'.timerOverallNew = s.timerOverallNew ∧ s'.timerRedNew = s.timerRedNew := by
  unfold everySecondRed at h
  rcases hfd : firstDraw (fun d => decide (d ≠ s.chosenNum ∧ d ≠ s.localNum2)) draws
    with _ | l
  · rw [hfd] at h; exact absurd h (by simp)
  · rw [hfd] at h
    rcases firstDraw_some hfd with ⟨hp, hmem⟩
    simp only [Option.some.injEq] at h
    subst h
    simp only [decide_eq_true_eq] at hp
    simp_all

theorem mouseTask_spec (s : GameState) (hasMouse : Bool) (hit : Option Nat) :
    ((mouseTask s hasMouse hit).mouseOver = s.mouseOver ∨
      (mouseTask s hasMouse hit).mouseOver = true) ∧
      (mouseTask s hasMouse hit).chosenNum = s.chosenNum ∧
      (mouseTask s hasMouse hit).localNum2 = s.localNum2 ∧
      (mouseTask s hasMouse hit).outputDataContents = s.outputDataContents ∧
      (mouseTask s hasMouse hit).timerOverallNew = s.timerOverallNew ∧
      (mouseTask s hasMouse hit).timerRedNew = s.timerRedNew := by
  unfold mouseTask
  rcases hasMouse with _ | _
  · simp
  · rcases hit with _ | i
    · simp
    · by_cases hc : s.chosenNum = i <;> simp [hc]

theorem changeColor_spec (s : GameState) (now : Rat) (nowStr : String) :
    (changeColor s now nowStr).chosenNum = s.chosenNum ∧
      (changeColor s now nowStr).localNum2 = s.localNum2 := by
  unfold changeColor
  by_cases hm : s.mouseOver = true <;> simp [hm]

theorem step_Inv {s s' : GameState} {st : Step} (hs : stepRun s st = some s')
    (hd : ∀ d ∈ st.draws, d < 17) (hi : Inv s) : Inv s' := by
  rcases hi with ⟨hc, hl, hne⟩
  cases st with
  | nextTick draws =>
    rcases everySecond_spec hs with ⟨h1, h2, h3, -, -, -, -⟩
    exact ⟨h3 ▸ hc, hd _ h2, fun he => h1 (h3 ▸ he.symm)⟩
  | activeTick draws =>
    rcases everySecondRed_spec hs with ⟨h1, h2, h3, h4, -, -, -, -⟩
    exact ⟨hd _ h3, h4 ▸ hl, fun he => h2 (h4 ▸ he)⟩
  | frame hasMouse hit =>
    simp only [stepRun, Option.some.injEq] at hs
    rcases mouseTask_spec s hasMouse hit with ⟨-, h1, h2, -, -, -⟩
    subst hs
    exact ⟨h1 ▸ hc, h2 ▸ hl, by rw [h1, h2]; exact hne⟩
  | click now nowStr =>
    simp only [stepRun, Option.some.injEq] at hs
    rcases changeColor_spec s now nowStr with ⟨h1, h2⟩
    subst hs
    exact ⟨h1 ▸ hc, h2 ▸ hl, by rw [h1, h2]; exact hne⟩

theorem runSteps_Inv {steps : List Step} :
    ∀ {s s' : GameState}, runSteps s steps = some s' → ValidDraws steps →
      Inv s → Inv s' := by
  induction steps with
  | nil =>
    intro s s' h _ hi
    simp only [runSteps, Option.some.injEq] at h
    exact h ▸ hi
  | cons st sts ih =>
    intro s s' h hv hi
    unfold runSteps at h
    rcases hst : stepRun s st with _ | s₁
    · rw [hst] at h; exact absurd h (by simp)
    · rw [hst] at h
      have h1 : Inv s₁ :=
        step_Inv hst (hv st (List.mem_cons_self st sts)) hi
      exact ih h (fun a ha d hdm => hv a (List.mem_cons_of_mem st ha) d hdm) h1

theorem step_noClick_frozen {s s' : GameState} {st : Step}
    (hs : stepRun s st = some s') (hnc : st.isClick = false) :
    s'.outputDataContents = s.outputDataContents ∧
      s'.timerOverallNew = s.timerOverallNew ∧
      s'.timerRedNew = s.timerRedNew ∧
      (s.mouseOver = true → s'.mouseOver = true) := by
  cases st with
  | nextTick draws =>
    rcases everySecond_spec hs with ⟨-, -, -, h4, h5, h6, h7⟩
    exact ⟨h5, h6, h7, fun hm => h4 ▸ hm⟩
  | activeTick draws =>
    rcases everySecondRed_spec hs with ⟨-, -, -, -, h5, h6, h7, h8⟩
    exact ⟨h6, h7, h8, fun hm => h5 ▸ hm⟩
  | frame hasMouse hit =>
    simp only [stepRun, Option.some.injEq] at hs
    rcases mouseTask_spec s hasMouse hit with ⟨h1, -, -, h4, h5, h6⟩
    subst hs
    refine ⟨h4, h5, h6, fun hm => ?_⟩
    rcases h1 with h1 | h1
    · rw [h1, hm]
    · exact h1
  | click now nowStr => simp [Step.isClick] at hnc

theorem runSteps_noClick_frozen {steps : List Step} :
    ∀ {s s' : GameState}, runSteps s steps = some s' →
      (∀ st ∈ steps, st.isClick = false) →
      s'.outputDataContents = s.outputDataContents ∧
        s'.timerOverallNew = s.timerOverallNew ∧
        s'.timerRedNew = s.timerRedNew := by
  induction steps with
  | nil =>
    intro s s' h _
    simp only [runSteps, Option.some.injEq] at h
    exact h ▸ ⟨rfl, rfl, rfl⟩
  | cons st sts ih =>
    intro s s' h hnc
    unfold runSteps at h
    rcases hst : stepRun s st with _ | s₁
    · rw [hst] at h; exact absurd h (by simp)
    · rw [hst] at h
      rcases step_noClick_frozen hst (hnc st (List.mem_cons_self st sts)) with
        ⟨h1, h2, h3, -⟩
      rcases ih h (fun a ha => hnc a (List.mem_cons_of_mem st ha)) with ⟨g1, g2, g3⟩
      exact ⟨g1.trans h1, g2.trans h2, g3.trans h3⟩

/-- C1: for the 17-target configuration, after initialization and after any
serialized sequence of scheduler ticks, frames and clicks whose random
outcomes are in range, both selection indices are valid targets and the active
index differs from the pre-selected index: `chosenNum ≠ localNum2` holds in
every reachable state. -/
theorem claim_C1_active_ne_next (c : Nat) (localDraws : List Nat) (str : String)
    (s₀ s : GameState) (steps : List Step)
    (hc : c < 17) (hld : ∀ d ∈ localDraws, d < 17)
    (h0 : initState c localDraws str = some s₀)
    (hv : ∀ st ∈ steps, ∀ d ∈ st.draws, d < 17)
    (h : runSteps s₀ steps = some s) :
    s.chosenNum < 17 ∧ s.localNum2 < 17 ∧ s.chosenNum ≠ s.localNum2 := by
  have hi : Inv s₀ := by
    rcases initState_spec h0 with ⟨h1, h2, h3, -, -, -, -⟩
    exact ⟨h1 ▸ hc, hld _ h3, fun he => h2 (by rw [← h1]; exact he.symm)⟩
  exact runSteps_Inv h hv hi

/-- Witness for C1 at a concrete run: init with active 0 and next 1, then an
ActiveTick drawing 2, a NextTick drawing 2 (rejected) then 3, and a frame
hitting the active target. -/
theorem claim_C1_witness :
    (⟨2, 3, true, headerLine ++ "12:00:00" ++ ",firstRedAppears,,\n", 99999, 99999⟩ :
        GameState).chosenNum < 17 ∧
    (⟨2, 3, true, headerLine ++ "12:00:00" ++ ",firstRedAppears,,\n", 99999, 99999⟩ :
        GameState).localNum2 < 17 ∧
    (⟨2, 3, true, headerLine ++ "12:00:00" ++ ",firstRedAppears,,\n", 99999, 99999⟩ :
        GameState).chosenNum ≠
      (⟨2, 3, true, headerLine ++ "12:00:00" ++ ",firstRedAppears,,\n", 99999, 99999⟩ :
        GameState).localNum2 :=
  claim_C1_active_ne_next 0 [0, 1] "12:00:00"
    ⟨0, 1, false, headerLine ++ "12:00:00" ++ ",firstRedAppears,,\n", 99999, 99999⟩
    ⟨2, 3, true, headerLine ++ "12:00:00" ++ ",firstRedAppears,,\n", 99999, 99999⟩
    [Step.activeTick [2], Step.nextTick [2, 3], Step.frame true (some 2)]
    (by decide) (by decide) rfl (by decide) (by decide)

/-- C10: after every completed ActiveTick, the new active index differs from
the active index held immediately before the tick, for every random outcome:
the rejection loop excludes the old active index as well as the current next
index. -/
theorem claim_C10_active_changes (s s' : GameState) (draws : List Nat)
    (h : everySecondRed s draws = some s') : s'.chosenNum ≠ s.chosenNum :=
  (everySecondRed_spec h).1

/-- Witness for C10: from active 0 and next 1, the ActiveTick drawing 2 yields
an active index different from 0. -/
theorem claim_C10_witness :
    (⟨2, 1, false, "", 99999, 99999⟩ : GameState).chosenNum ≠
      (⟨0, 1, false, "", 99999, 99999⟩ : GameState).chosenNum :=
  claim_C10_active_changes ⟨0, 1, false, "", 99999, 99999⟩
    ⟨2, 1, false, "", 99999, 99999⟩ [2] rfl

/-- C3 counterexample: the ActiveTick sampler does NOT accept every draw that
merely differs from the current next index.  In the state with active index 0
and next index 1, the single draw 0 differs from the next index yet is
rejected (the tick fails to complete on this oracle stream), because the
sampler also excludes the old active index; hence the new active index can
never equal the old one. -/
theorem claim_C3_counterexample :
    everySecondRed ⟨0, 1, false, "", 99999, 99999⟩ [0] = none ∧
      (0 : Nat) ≠ (⟨0, 1, false, "", 99999, 99999⟩ : GameState).localNum2 :=
  ⟨rfl, by decide⟩

/-- C3 amended: on every completed ActiveTick the new active index is the
first random draw that differs from BOTH the current next index and the
previous active index; in particular it never equals the previous active
index. -/
theorem claim_C3_amended (s s' : GameState) (draws : List Nat)
    (h : everySecondRed s draws = some s') :
    s'.chosenNum ∈ draws ∧ s'.chosenNum ≠ s.localNum2 ∧
      s'.chosenNum ≠ s.chosenNum ∧
      firstDraw (fun d => decide (d ≠ s.chosenNum ∧ d ≠ s.localNum2)) draws =
        some s'.chosenNum := by
  refine ⟨(everySecondRed_spec h).2.2.1, (everySecondRed_spec h).2.1,
    (everySecondRed_spec h).1, ?_⟩
  unfold everySecondRed at h
  rcases hfd : firstDraw (fun d => decide (d ≠ s.chosenNum ∧ d ≠ s.localNum2)) draws
    with _ | l
  · rw [hfd] at h; exact absurd h (by simp)
  · rw [hfd] at h
    simp only [Option.some.injEq] at h
    subst h
    rfl

/-- Witness for C3 (amended): from active 0 and next 1, with oracle stream
[0, 1, 2] the tick rejects 0 and 1 and selects 2, a member of the stream. -/
theorem claim_C3_amended_witness :
    (⟨2, 1, false, "", 99999, 99999⟩ : GameState).chosenNum ∈ [0, 1, 2] :=
  (claim_C3_amended ⟨0, 1, false, "", 99999, 99999⟩
    ⟨2, 1, false, "", 99999, 99999⟩ [0, 1, 2] rfl).1

/-- C7: the NextTick handler never changes the active index, the ActiveTick
handler never changes the pre-selected index, and neither the per-frame hit
test nor the click handler changes either index. -/
theorem claim_C7_no_cross_mutation :
    (∀ (s : GameState) (draws : List Nat) (s' : GameState),
        everySecond s draws = some s' → s'.chosenNum = s.chosenNum) ∧
    (∀ (s : GameState) (draws : List Nat) (s' : GameState),
        everySecondRed s draws = some s' → s'.localNum2 = s.localNum2) ∧
    (∀ (s : GameState) (hasMouse : Bool) (hit : Option Nat),
        (mouseTask s hasMouse hit).chosenNum = s.chosenNum ∧
          (mouseTask s hasMouse hit).localNum2 = s.localNum2) ∧
    (∀ (s : GameState) (now : Rat) (str : String),
        (changeColor s now str).chosenNum = s.chosenNum ∧
          (changeColor s now str).localNum2 = s.localNum2) :=
  ⟨fun _ _ _ h => (everySecond_spec h).2.2.1,
    fun _ _ _ h => (everySecondRed_spec h).2.2.2.1,
    fun s hasMouse hit => ⟨(mouseTask_spec s hasMouse hit).2.1,
      (mouseTask_spec s hasMouse hit).2.2.1⟩,
    fun s now str => changeColor_spec s now str⟩

/-- Witness for C7: a concrete NextTick drawing 2 leaves the active index 0
unchanged. -/
theorem claim_C7_witness :
    (⟨0, 2, false, "", 99999, 99999⟩ : GameState).chosenNum =
      (⟨0, 1, false, "", 99999, 99999⟩ : GameState).chosenNum :=
  claim_C7_no_cross_mutation.1 ⟨0, 1, false, "", 99999, 99999⟩ [2]
    ⟨0, 2, false, "", 99999, 99999⟩ rfl

/-- C4: the per-frame hit test either sets the pointer-over flag to true or
leaves it unchanged (also on frames with no valid pointer position and on
frames where the pointer is not over the active target), and across all
serialized operations the flag only falls from true to false on a click
step. -/
theorem claim_C4_mouseOver_latch :
    (∀ (s : GameState) (hasMouse : Bool) (hit : Option Nat),
        (mouseTask s hasMouse hit).mouseOver = true ∨
          (mouseTask s hasMouse hit).mouseOver = s.mouseOver) ∧
    (∀ (s : GameState) (st : Step) (s' : GameState),
        stepRun s st = some s' → s.mouseOver = true → s'.mouseOver = false →
          ∃ (now : Rat) (nowStr : String), st = Step.click now nowStr) := by
  constructor
  · intro s hasMouse hit
    exact ((mouseTask_spec s hasMouse hit).1).symm
  · intro s st s' hs hm hm'
    cases st with
    | nextTick draws =>
      rcases everySecond_spec hs with ⟨-, -, -, h4, -, -, -⟩
      rw [h4, hm] at hm'
      exact absurd hm' (by simp)
    | activeTick draws =>
      rcases everySecondRed_spec hs with ⟨-, -, -, -, h5, -, -, -⟩
      rw [h5, hm] at hm'
      exact absurd hm' (by simp)
    | frame hasMouse hit =>
      simp only [stepRun, Option.some.injEq] at hs
      subst hs
      rcases (mouseTask_spec s hasMouse hit).1 with h1 | h1
      · rw [h1, hm] at hm'
        exact absurd hm' (by simp)
      · rw [h1] at hm'
        exact absurd hm' (by simp)
    | click now nowStr => exact ⟨now, nowStr, rfl⟩

/-- Witness for C4: a click from a pointer-over state drops the flag, and the
step recorded for it is indeed a click. -/
theorem claim_C4_witness :
    ∃ (now : Rat) (nowStr : String),
      Step.click (5 : Rat) "12:00:01" = Step.click now nowStr :=
  claim_C4_mouseOver_latch.2 ⟨0, 1, true, "", 99999, 99999⟩
    (Step.click 5 "12:00:01")
    (changeColor ⟨0, 1, true, "", 99999, 99999⟩ 5 "12:00:01") rfl rfl rfl

/-- C2: a click processed while the pointer-over flag is set appends exactly
one inside-active line carrying both elapsed deltas (overall and
inside-to-inside), moves both timing cursors to the current clock reading, and
clears the flag; hence a second click with no intervening pointer re-entry
appends an outside-active line. -/
theorem claim_C2_inside_click (s : GameState) (now now₂ : Rat)
    (str str₂ : String) (h : s.mouseOver = true) :
    (changeColor s now str).outputDataContents =
        s.outputDataContents ++
          insideRedLine str (clamp0 (now - s.timerOverallNew))
            (clamp0 (now - s.timerRedNew)) ∧
    (changeColor s now str).timerOverallNew = now ∧
    (changeColor s now str).timerRedNew = now ∧
    (changeColor s now str).mouseOver = false ∧
    (changeColor (changeColor s now str) now₂ str₂).outputDataContents =
        (changeColor s now str).outputDataContents ++
          outsideRedLine str₂ (clamp0 (now₂ - now)) := by
  have h1 : changeColor s now str =
      { s with
          outputDataContents := s.outputDataContents ++
            insideRedLine str (clamp0 (now - s.timerOverallNew))
              (clamp0 (now - s.timerRedNew))
          timerOverallNew := now
          timerRedNew := now
          mouseOver := false } := by
    unfold changeColor
    rw [if_pos h]
  rw [h1]
  refine ⟨rfl, rfl, rfl, rfl, ?_⟩
  unfold changeColor
  rw [if_neg (by simp)]

/-- Witness for C2: from a pointer-over state, the click at reading 5 clears
the flag. -/
theorem claim_C2_witness :
    (changeColor (⟨0, 1, true, "", 99999, 99999⟩ : GameState) 5
        "12:00:01").mouseOver = false :=
  (claim_C2_inside_click ⟨0, 1, true, "", 99999, 99999⟩ 5 7 "12:00:01"
    "12:00:02" rfl).2.2.2.1

/-- C5 counterexample: the timing cursors are initialised to the finite
sentinel 99999, which is not beyond every possible clock reading: from the
state produced by initialization, a first click at clock reading 100000
records the delta 1, not 0. -/
theorem claim_C5_counterexample :
    initState 0 [1] "12:00:00" = some
        ⟨0, 1, false, headerLine ++ "12:00:00" ++ ",firstRedAppears,,\n",
          99999, 99999⟩ ∧
    (changeColor
        (⟨0, 1, false, headerLine ++ "12:00:00" ++ ",firstRedAppears,,\n",
          99999, 99999⟩ : GameState) 100000 "12:00:01").outputDataContents =
      (headerLine ++ "12:00:00" ++ ",firstRedAppears,,\n") ++
        outsideRedLine "12:00:01" 1 ∧
    (1 : Rat) ≠ 0 := by
  refine ⟨rfl, ?_, by norm_num⟩
  have h1 : clamp0 ((100000 : Rat) - 99999) = 1 := by
    unfold clamp0
    norm_num
  unfold changeColor
  rw [if_neg (by simp)]
  simp only [h1]

/-- C5 amended: both timing cursors are initialised to the sentinel 99999;
the sentinel survives any click-free activity, and a first click at any clock
reading at most 99999 records delta(s) equal to zero, in whichever branch it
lands. -/
theorem claim_C5_amended (c : Nat) (localDraws : List Nat) (str : String)
    (s₀ s : GameState) (steps : List Step)
    (h0 : initState c localDraws str = some s₀)
    (hnc : ∀ st ∈ steps, st.isClick = false)
    (h : runSteps s₀ steps = some s)
    (now : Rat) (hnow : now ≤ 99999) (str₂ : String) :
    s.timerOverallNew = 99999 ∧ s.timerRedNew = 99999 ∧
    (changeColor s now str₂).outputDataContents =
      s.outputDataContents ++
        (if s.mouseOver = true then insideRedLine str₂ 0 0
          else outsideRedLine str₂ 0) := by
  rcases initState_spec h0 with ⟨-, -, -, -, -, g6, g7⟩
  rcases runSteps_noClick_frozen h hnc with ⟨-, f2, f3⟩
  have ho : s.timerOverallNew = 99999 := f2.trans g6
  have hr : s.timerRedNew = 99999 := f3.trans g7
  have hz : clamp0 (now - (99999 : Rat)) = 0 := by
    unfold clamp0
    rcases lt_or_eq_of_le (sub_nonpos.mpr hnow) with hlt | heq
    · rw [if_pos hlt]
    · rw [heq]
      simp
  refine ⟨ho, hr, ?_⟩
  unfold changeColor
  by_cases hm : s.mouseOver = true
  · rw [if_pos hm, if_pos hm]
    simp only [ho, hr, hz]
  · rw [if_neg hm, if_neg hm]
    simp only [ho, hz]

/-- Witness for C5 (amended): the initial state itself (no steps) carries the
sentinel 99999 in the overall cursor. -/
theorem claim_C5_amended_witness :
    (⟨0, 1, false, headerLine ++ "12:00:00" ++ ",firstRedAppears,,\n",
        99999, 99999⟩ : GameState).timerOverallNew = 99999 :=
  (claim_C5_amended 0 [1] "12:00:00"
    ⟨0, 1, false, headerLine ++ "12:00:00" ++ ",firstRedAppears,,\n",
      99999, 99999⟩
    ⟨0, 1, false, headerLine ++ "12:00:00" ++ ",firstRedAppears,,\n",
      99999, 99999⟩
    [] rfl (by simp) rfl 0 (by norm_num) "12:00:01").1

/-- C6: the deltas recorded by a click are never negative: each recorded
delta is `clamp0` of the clock reading minus the stored cursor, `clamp0` is
nonnegative, and it is exactly 0 whenever that difference is negative. -/
theorem claim_C6_clamped (s : GameState) (now : Rat) (str : String) :
    (0 ≤ clamp0 (now - s.timerOverallNew) ∧
      (now - s.timerOverallNew < 0 → clamp0 (now - s.timerOverallNew) = 0)) ∧
    (0 ≤ clamp0 (now - s.timerRedNew) ∧
      (now - s.timerRedNew < 0 → clamp0 (now - s.timerRedNew) = 0)) ∧
    (changeColor s now str).outputDataContents =
      s.outputDataContents ++
        (if s.mouseOver = true then
          insideRedLine str (clamp0 (now - s.timerOverallNew))
            (clamp0 (now - s.timerRedNew))
        else outsideRedLine str (clamp0 (now - s.timerOverallNew))) := by
  have key : ∀ x : Rat, 0 ≤ clamp0 x ∧ (x < 0 → clamp0 x = 0) := by
    intro x
    unfold clamp0
    constructor
    · split
      · exact le_refl 0
      · linarith [not_lt.mp (by assumption : ¬ x < 0)]
    · intro hx
      rw [if_pos hx]
  refine ⟨key _, key _, ?_⟩
  unfold changeColor
  by_cases hm : s.mouseOver = true
  · rw [if_pos hm, if_pos hm]
  · rw [if_neg hm, if_neg hm]

/-- Witness for C6: with the cursor at 99999 and a click at reading 0, the
difference is negative and the recorded delta is exactly 0. -/
theorem claim_C6_witness : clamp0 ((0 : Rat) - 99999) = 0 :=
  (claim_C6_clamped ⟨0, 1, false, "", 99999, 99999⟩ 0 "12:00:01").1.2
    (by norm_num)

/-- C8: if the quit signal arrives after initialization with no click
processed, the written artifact is exactly the fixed header line followed by
the single firstRedAppears line with both elapsed-time fields empty; when the
timestamp contains no newline the artifact consists of exactly two lines. -/
theorem claim_C8_empty_log (c : Nat) (localDraws : List Nat) (str : String)
    (s₀ s : GameState) (steps : List Step)
    (h0 : initState c localDraws str = some s₀)
    (hnc : ∀ st ∈ steps, st.isClick = false)
    (h : runSteps s₀ steps = some s) :
    saveContents s = headerLine ++ str ++ ",firstRedAppears,,\n" ∧
    (str.toList.count '\n' = 0 → (saveContents s).toList.count '\n' = 2) := by
  rcases initState_spec h0 with ⟨-, -, -, -, g5, -, -⟩
  rcases runSteps_noClick_frozen h hnc with ⟨f1, -, -⟩
  have hc : saveContents s = headerLine ++ str ++ ",firstRedAppears,,\n" := by
    unfold saveContents
    rw [f1, g5]
  refine ⟨hc, fun hstr => ?_⟩
  rw [hc]
  have e1 : (headerLine ++ str ++ ",firstRedAppears,,\n").toList =
      headerLine.toList ++ str.toList ++ ",firstRedAppears,,\n".toList := rfl
  rw [e1, List.count_append, List.count_append, hstr]
  decide

/-- Witness for C8: quitting straight after initialization writes the header
and the firstRedAppears line. -/
theorem claim_C8_witness :
    saveContents
        ⟨0, 1, false, headerLine ++ "12:00:00" ++ ",firstRedAppears,,\n",
          99999, 99999⟩ =
      headerLine ++ "12:00:00" ++ ",firstRedAppears,,\n" :=
  (claim_C8_empty_log 0 [1] "12:00:00"
    ⟨0, 1, false, headerLine ++ "12:00:00" ++ ",firstRedAppears,,\n",
      99999, 99999⟩
    ⟨0, 1, false, headerLine ++ "12:00:00" ++ ",firstRedAppears,,\n",
      99999, 99999⟩
    [] rfl (by simp) rfl).1

theorem makeid_succ (n : Nat) (draw : Nat → Fin 62) :
    makeid (n + 1) draw =
      (makeid n draw).push
        (characters.toList.get
          (Fin.cast characters_toList_length.symm (draw n))) := by
  unfold makeid
  rw [List.range_succ, List.foldl_append]
  rfl

theorem makeid_length (n : Nat) (draw : Nat → Fin 62) :
    (makeid n draw).length = n := by
  induction n with
  | zero => rfl
  | succ n ih => rw [makeid_succ, String.length_push, ih]

theorem makeid_mem (n : Nat) (draw : Nat → Fin 62) :
    ∀ ch ∈ (makeid n draw).toList, ch ∈ characters.toList := by
  induction n with
  | zero =>
    intro ch hch
    exact absurd hch (by simp [makeid])
  | succ n ih =>
    intro ch hch
    rw [makeid_succ] at hch
    have hch' : ch ∈ (makeid n draw).toList ++
        [characters.toList.get
          (Fin.cast characters_toList_length.symm (draw n))] := hch
    rcases List.mem_append.mp hch' with hl | hr
    · exact ih ch hl
    · rw [List.mem_singleton.mp hr]
      exact List.get_mem _ _ _

/-- C9: the identifier generator at the reference length 16 yields a string of
exactly 16 characters, each drawn from the 62-character alphanumeric alphabet,
and the artifact written on quit is named `dataFile_<id>.txt`. -/
theorem claim_C9_makeid (draw : Nat → Fin 62) :
    (makeid 16 draw).length = 16 ∧
    (∀ ch ∈ (makeid 16 draw).toList, ch ∈ characters.toList) ∧
    saveFileName draw = "dataFile_" ++ makeid 16 draw ++ ".txt" :=
  ⟨makeid_length 16 draw, makeid_mem 16 draw, rfl⟩

/-- Witness for C9: the all-zero oracle produces a 16-character identifier. -/
theorem claim_C9_witness : (makeid 16 (fun _ => 0)).length = 16 :=
  (claim_C9_makeid (fun _ => 0)).1

end RedDot
